import Mathlib

set_option autoImplicit false
set_option linter.unusedVariables false

/- Shallow embedding of the keyframe-extraction core of the repository:
`video_processor.py` (class `VideoProcessor`) and the `/process-video` handler in
`video.py`. Machine floats coming from OpenCV (`CAP_PROP_FPS`) are modeled as
rationals; Python `int()` on a nonnegative float is truncation toward zero;
fallible Python code is modeled with `Except`. Temporary files written under the
processor's `temp_dir` are threaded explicitly so that end-of-run file state is
visible. -/

/-- Python `int()` applied to a rational value: truncation toward zero. -/
def pyTrunc (q : ℚ) : ℤ :=
  if q < 0 then -⌊-q⌋ else ⌊q⌋

/-- A raw decoded video frame. Only its pixel dimensions are relevant to the
embedded code paths (`height, width = frame.shape[:2]` in `_optimize_image`);
pixel data is abstracted away. -/
structure Frame where
  width : ℕ
  height : ℕ
  deriving DecidableEq

/-- Outcome of `cap.read()` after seeking to a frame position. `frame f` models
`ret == True` with decoded frame `f`; `noFrame` models the graceful failure
`ret == False` (OpenCV reports an unreadable frame by returning `False`, it does
not raise); `raised` models an exception escaping the read call. -/
inductive ReadOutcome where
  | frame (f : Frame)
  | noFrame
  | raised
  deriving DecidableEq

/-- One step record as produced by the processor: a Python dict with keys
`title`, `description`, `image_url`, `order`. -/
structure StepRecord where
  title : String
  description : String
  image_url : String
  order : ℕ
  deriving DecidableEq

/-- Dimensions of the image produced by `VideoProcessor._optimize_image`
(lines 71–87). The JPEG byte content is abstracted away; the resize arithmetic
is kept exactly. -/
structure EncodedImage where
  width : ℕ
  height : ℕ
  deriving DecidableEq

/-- Embeds `_optimize_image` (lines 71–87): if `width > max_width`, both
dimensions are multiplied by `ratio = max_width / width` and passed through
Python `int()` (truncation); otherwise the frame keeps its dimensions. -/
def optimize_image (frame : Frame) (max_width : ℕ := 1200) : EncodedImage :=
  if frame.width > max_width then
    let ratio : ℚ := (max_width : ℚ) / (frame.width : ℚ)
    { width := (pyTrunc ((frame.width : ℚ) * ratio)).toNat
      height := (pyTrunc ((frame.height : ℚ) * ratio)).toNat }
  else
    { width := frame.width, height := frame.height }

/-- The fixed pool of six step templates in `_generate_step_from_position`
(lines 126–151), in source order. -/
def step_templates : List (String × String) :=
  [("Initial Setup and Preparation",
    "Begin by setting up your workspace and gathering all necessary materials. Ensure you have a clean, organized area to work in and all tools are easily accessible."),
   ("Primary Process Execution",
    "Start the main procedure following the demonstrated technique. Pay close attention to the specific movements and timing shown in the video."),
   ("Intermediate Steps and Adjustments",
    "Continue with the intermediate steps, making any necessary adjustments as you progress. Monitor your work carefully and compare with the reference."),
   ("Advanced Techniques Application",
    "Apply the more advanced techniques demonstrated in the video. Take your time with these steps as they often require precision and practice."),
   ("Final Assembly and Completion",
    "Complete the final assembly steps and perform quality checks. Ensure all components are properly secured and the result matches the expected outcome."),
   ("Quality Control and Finishing",
    "Perform final quality control checks and apply any finishing touches. Clean up your workspace and properly store any remaining materials.")]

/-- Embeds `_generate_step_from_position` (lines 124–162). The template index is
`min(step_index, len(step_templates) - 1)`; the record's image URL is the
placeholder `https://picsum.photos/id/{10 + step_index}/800/400` and its order is
`step_index + 1`. The `total_steps` and `keyframe_path` arguments are accepted,
as in the source, but do not influence the record. -/
def generate_step_from_position (step_index : ℕ) (total_steps : ℕ)
    (keyframe_path : String) : StepRecord :=
  let template_index := min step_index (step_templates.length - 1)
  let template := step_templates.getD template_index ("", "")
  { title := template.1
    description := template.2
    image_url := "https://picsum.photos/id/" ++ toString (10 + step_index) ++ "/800/400"
    order := step_index + 1 }

/-- The fixed mock title pool of `_generate_mock_steps` (lines 168–175). -/
def step_titles : List String :=
  ["Workspace Preparation",
   "Material Gathering",
   "Initial Setup",
   "Main Process",
   "Quality Checks",
   "Final Assembly"]

/-- The fixed mock description pool of `_generate_mock_steps` (lines 177–184). -/
def step_descriptions : List String :=
  ["Set up your workspace with proper lighting and organization. Ensure all tools are clean and within reach.",
   "Gather all required materials and tools. Check that everything is in good condition and properly functioning.",
   "Begin the initial setup process following the demonstrated sequence. Take care with positioning and alignment.",
   "Execute the main procedure with attention to detail. Follow the timing and technique shown in the video.",
   "Perform quality control checks at each stage. Make adjustments as needed to ensure proper results.",
   "Complete the final assembly and finishing steps. Clean up and organize your completed work."]

/-- The clamp `min(max(int(duration / 30), 3), 6)` of `_generate_mock_steps`
(line 166). -/
def mock_num_steps (duration : ℚ) : ℕ :=
  (min (max (pyTrunc (duration / 30)) 3) 6).toNat

/-- Embeds `_generate_mock_steps` (lines 164–194): one record per
`i in range(num_steps)`, with pool entries when `i` is in range and the
`f"Step {i+1}"` defaults otherwise, placeholder image URL keyed by `20 + i`, and
order `i + 1`. The `guide_id` argument does not influence the records. -/
def generate_mock_steps (guide_id : ℤ) (duration : ℚ) : List StepRecord :=
  (List.range (mock_num_steps duration)).map fun i =>
    { title := step_titles.getD i ("Step " ++ toString (i + 1))
      description := step_descriptions.getD i
        ("Complete step " ++ toString (i + 1) ++ " as demonstrated in the video.")
      image_url := "https://picsum.photos/id/" ++ toString (20 + i) ++ "/800/400"
      order := i + 1 }

/-- `num_steps = min(max(int(frame_count / (fps * 20)), 3), 6)`
(`_extract_keyframes_and_generate_steps`, line 93). Meaningful only when
`fps ≠ 0`; see `plan_result` for the raising behavior. -/
def plan_num_steps (fps : ℚ) (frame_count : ℕ) : ℕ :=
  (min (max (pyTrunc ((frame_count : ℚ) / (fps * 20))) 3) 6).toNat

/-- `interval = frame_count // num_steps` (line 94), Nat division. -/
def plan_interval (fps : ℚ) (frame_count : ℕ) : ℕ :=
  frame_count / plan_num_steps fps frame_count

/-- The sample plan implicit in the loop header of
`_extract_keyframes_and_generate_steps` (lines 99–100): the pairs
`(i, frame_number) = (i, i * interval)` for `i in range(num_steps)`. -/
def sample_plan (fps : ℚ) (frame_count : ℕ) : List (ℕ × ℕ) :=
  (List.range (plan_num_steps fps frame_count)).map fun i =>
    (i, i * plan_interval fps frame_count)

/-- The planning computation as actually executed: when `fps = 0` the Python
expression `frame_count / (fps * 20)` raises ZeroDivisionError (float division
by zero), modeled as `Except.error ()`; otherwise the plan is produced (planning
itself has no other failure mode). -/
def plan_result (fps : ℚ) (frame_count : ℕ) : Except Unit (List (ℕ × ℕ)) :=
  if fps * 20 = 0 then Except.error ()
  else Except.ok (sample_plan fps frame_count)

/-- The sampling loop body (lines 99–115) over the planned `(i, frame_number)`
pairs, threading the accumulated step list and the keyframe files written so
far. A read with `ret == False` skips the sample; a successful read optimizes
the frame, writes the keyframe file `keyframe_{guide_id}_{i}.jpg` under
`temp_dir`, and appends one step; an exception raised by a read aborts the loop
(`Except.error`), keeping the files already written. -/
def run_samples (read : ℕ → ReadOutcome) (temp_dir : String) (guide_id : ℤ)
    (num_steps : ℕ) : List (ℕ × ℕ) → List StepRecord → List String →
    Except (List String) (List StepRecord × List String)
  | [], steps, files => Except.ok (steps, files)
  | (i, frame_number) :: rest, steps, files =>
    match read frame_number with
    | ReadOutcome.raised => Except.error files
    | ReadOutcome.noFrame => run_samples read temp_dir guide_id num_steps rest steps files
    | ReadOutcome.frame f =>
      let keyframe_path :=
        temp_dir ++ "/keyframe_" ++ toString guide_id ++ "_" ++ toString i ++ ".jpg"
      let _optimized := optimize_image f
      let step := generate_step_from_position i num_steps keyframe_path
      run_samples read temp_dir guide_id num_steps rest (steps ++ [step])
        (files ++ [keyframe_path])

/-- Embeds `_extract_keyframes_and_generate_steps` (lines 89–122). Returns the
step list together with the keyframe files written to `temp_dir` during the call
(the source never deletes them). The `except` handler (lines 119–122) turns any
exception — the ZeroDivisionError from line 93 when `fps = 0`, or one raised
during a read — into the duration-based mock fallback with
`duration = frame_count / fps if fps > 0 else 60`. -/
def extract_keyframes_and_generate_steps (read : ℕ → ReadOutcome)
    (temp_dir : String) (fps : ℚ) (frame_count : ℕ) (guide_id : ℤ) :
    List StepRecord × List String :=
  match plan_result fps frame_count with
  | Except.error _ =>
    (generate_mock_steps guide_id
      (if 0 < fps then (frame_count : ℚ) / fps else 60), [])
  | Except.ok plan =>
    match run_samples read temp_dir guide_id (plan_num_steps fps frame_count)
        plan [] [] with
    | Except.ok (steps, files) => (steps, files)
    | Except.error files =>
      (generate_mock_steps guide_id
        (if 0 < fps then (frame_count : ℚ) / fps else 60), files)

/-- A video source as seen through `cv2.VideoCapture`: whether `isOpened()`
returns true, the reported `CAP_PROP_FPS` and `CAP_PROP_FRAME_COUNT`, and the
outcome of reading at each frame position. -/
structure VideoSource where
  opens : Bool
  fps : ℚ
  frame_count : ℕ
  read : ℕ → ReadOutcome

/-- The reference handed to `process_video`: a local path, or an http(s) URL
together with whether its download (`requests.get` + `raise_for_status` +
chunked write) succeeds. -/
inductive VideoRef where
  | localPath (p : String)
  | url (u : String) (download_ok : Bool)

/-- Embeds `_download_video` (lines 51–69): on success a temporary file
`video_….mp4` is written into `temp_dir` and its path returned; on failure the
exception propagates and no file has been created. The random
`os.urandom(8).hex()` name component is abstracted by the source URL. -/
def download_video (temp_dir : String) (u : String) (ok : Bool) :
    Except String String × List String :=
  if ok then
    let temp_file := temp_dir ++ "/video_" ++ u ++ ".mp4"
    (Except.ok temp_file, [temp_file])
  else
    (Except.error ("Error downloading video from " ++ u), [])

/-- Lines 29–45 of `process_video`: open the capture; if `isOpened()` is false
raise `ValueError(f"Could not open video file: {video_path}")` (re-raised by the
outer handler), otherwise extract steps. The second component is the set of
temporary files written under `temp_dir` during this part of the call. -/
def open_and_extract (temp_dir : String) (video_path : String)
    (src : VideoSource) (guide_id : ℤ) :
    Except String (List StepRecord) × List String :=
  if src.opens then
    let r := extract_keyframes_and_generate_steps src.read temp_dir src.fps
      src.frame_count guide_id
    (Except.ok r.1, r.2)
  else
    (Except.error ("Could not open video file: " ++ video_path), [])

/-- Embeds `VideoProcessor.process_video` (lines 19–49). The second component
lists the temporary files under the processor's `temp_dir` that still exist when
the call returns or raises: no code path of `VideoProcessor` removes `temp_dir`
or any file inside it. -/
def process_video (temp_dir : String) (ref : VideoRef) (src : VideoSource)
    (guide_id : ℤ) : Except String (List StepRecord) × List String :=
  match ref with
  | VideoRef.localPath p => open_and_extract temp_dir p src guide_id
  | VideoRef.url u ok =>
    match download_video temp_dir u ok with
    | (Except.error e, fs) => (Except.error e, fs)
    | (Except.ok video_path, fs) =>
      let r := open_and_extract temp_dir video_path src guide_id
      (r.1, fs ++ r.2)

/-- `actual_guide_id = guide_id if guide_id is not None else
hash(video_hash) % 10000` (`video.py`, line 53). Python's builtin `hash` on a
`str` is salted per interpreter process (PYTHONHASHSEED), so it is modeled as an
environment-supplied integer-valued function; Python `%` with a positive modulus
agrees with `Int.emod`. -/
def actual_guide_id (py_str_hash : String → ℤ) (guide_id : Option ℤ)
    (video_hash : String) : ℤ :=
  match guide_id with
  | some g => g
  | none => py_str_hash video_hash % 10000

/-- The shape of the Python value bound to `result` in `upload_video`:
`process_video` returns a bare list of step dicts; a dict-shaped result (list of
steps plus a `cached` flag) is also representable so that item assignment is
modeled on both shapes. -/
inductive PyValue where
  | pyList (steps : List StepRecord)
  | pyDict (steps : List StepRecord) (cached : Bool)
  deriving DecidableEq

/-- `result["cached"] = False` (`video.py`, line 64): item assignment with a
string key succeeds on a dict and raises
`TypeError: list indices must be integers or slices, not str` on a list. -/
def set_cached_false : PyValue → Except String PyValue
  | PyValue.pyList _ => Except.error "list indices must be integers or slices, not str"
  | PyValue.pyDict steps _ => Except.ok (PyValue.pyDict steps false)

/-- Outcome of the `/process-video` handler: a JSON success body, or an
HTTPException with a status code. -/
inductive HandlerOutcome where
  | success (body : PyValue)
  | httpError (status_code : ℕ) (detail : String)
  deriving DecidableEq

/-- Embeds `upload_video` (`video.py`, lines 42–84) from the point where
`process_video` runs: a raised exception from processing, or the TypeError from
`result["cached"] = False` on its list-shaped return value, is caught by the
`except` clause and re-raised as an HTTP 500 error. -/
def upload_video (proc : Except String (List StepRecord)) : HandlerOutcome :=
  match proc with
  | Except.error e => HandlerOutcome.httpError 500 e
  | Except.ok steps =>
    match set_cached_false (PyValue.pyList steps) with
    | Except.error e => HandlerOutcome.httpError 500 e
    | Except.ok v => HandlerOutcome.success v

/-- A demonstration source: opens, 30 fps, 3000 frames, every read decodes an
800×600 frame. -/
def src_all_ok : VideoSource :=
  ⟨true, 30, 3000, fun _ => ReadOutcome.frame ⟨800, 600⟩⟩

/-- A source that opens (30 fps, 3000 frames) but every read returns
`ret == False`. -/
def src_all_noframe : VideoSource :=
  ⟨true, 30, 3000, fun _ => ReadOutcome.noFrame⟩

/-- A source that opens (30 fps, 3000 frames) but every read raises. -/
def src_all_raise : VideoSource :=
  ⟨true, 30, 3000, fun _ => ReadOutcome.raised⟩

/-- A source that opens (30 fps, 3000 frames); the read at frame 0 returns
`ret == False` and every later read decodes an 800×600 frame. -/
def src_skip_first : VideoSource :=
  ⟨true, 30, 3000, fun k => if k = 0 then ReadOutcome.noFrame
                            else ReadOutcome.frame ⟨800, 600⟩⟩

/-- A source whose `isOpened()` is false. -/
def src_no_open : VideoSource :=
  ⟨false, 30, 3000, fun _ => ReadOutcome.raised⟩

/- General lemmas about the embedded definitions, shared by the claim theorems
below. -/

theorem pyTrunc_of_nonneg {q : ℚ} (h : 0 ≤ q) : pyTrunc q = ⌊q⌋ := by
  unfold pyTrunc
  rw [if_neg (not_lt.mpr h)]

theorem three_le_plan_num_steps (fps : ℚ) (n : ℕ) : 3 ≤ plan_num_steps fps n := by
  unfold plan_num_steps
  generalize pyTrunc ((n : ℚ) / (fps * 20)) = x
  omega

theorem plan_num_steps_le_six (fps : ℚ) (n : ℕ) : plan_num_steps fps n ≤ 6 := by
  unfold plan_num_steps
  generalize pyTrunc ((n : ℚ) / (fps * 20)) = x
  omega

theorem three_le_mock_num_steps (d : ℚ) : 3 ≤ mock_num_steps d := by
  unfold mock_num_steps
  generalize pyTrunc (d / 30) = x
  omega

theorem mock_num_steps_le_six (d : ℚ) : mock_num_steps d ≤ 6 := by
  unfold mock_num_steps
  generalize pyTrunc (d / 30) = x
  omega

theorem plan_result_of_ne {fps : ℚ} (h : fps ≠ 0) (n : ℕ) :
    plan_result fps n = Except.ok (sample_plan fps n) := by
  unfold plan_result
  rw [if_neg (mul_ne_zero h (by norm_num))]

theorem length_sample_plan (fps : ℚ) (n : ℕ) :
    (sample_plan fps n).length = plan_num_steps fps n := by
  simp [sample_plan]

theorem length_generate_mock_steps (g : ℤ) (d : ℚ) :
    (generate_mock_steps g d).length = mock_num_steps d := by
  simp [generate_mock_steps]

theorem get_generate_mock_steps (g : ℤ) (d : ℚ) (k : ℕ)
    (hk : k < (generate_mock_steps g d).length) :
    ((generate_mock_steps g d).get ⟨k, hk⟩).order = k + 1 ∧
    ((generate_mock_steps g d).get ⟨k, hk⟩).image_url =
      "https://picsum.photos/id/" ++ toString (20 + k) ++ "/800/400" := by
  simp only [generate_mock_steps, List.get_eq_getElem, List.getElem_map,
    List.getElem_range]
  exact ⟨trivial, trivial⟩

theorem plan_num_steps_30_3000 : plan_num_steps 30 3000 = 5 := by
  unfold plan_num_steps pyTrunc
  rw [if_neg (by norm_num)]
  norm_num
  decide

theorem plan_interval_30_3000 : plan_interval 30 3000 = 600 := by
  unfold plan_interval
  rw [plan_num_steps_30_3000]

theorem sample_plan_30_3000 :
    sample_plan 30 3000 = [(0, 0), (1, 600), (2, 1200), (3, 1800), (4, 2400)] := by
  unfold sample_plan
  rw [plan_num_steps_30_3000]
  simp only [plan_interval_30_3000]
  decide

theorem mock_num_steps_100 : mock_num_steps 100 = 3 := by
  unfold mock_num_steps pyTrunc
  rw [if_neg (by norm_num)]
  norm_num
  decide

theorem mock_num_steps_60 : mock_num_steps 60 = 3 := by
  unfold mock_num_steps pyTrunc
  rw [if_neg (by norm_num)]
  norm_num
  decide

theorem run_samples_raised (read : ℕ → ReadOutcome) (td : String) (gid : ℤ)
    (ns : ℕ) (l : List (ℕ × ℕ)) (steps : List StepRecord) (files : List String)
    (h : ∃ pr ∈ l, read pr.2 = ReadOutcome.raised) :
    ∃ fs, run_samples read td gid ns l steps files = Except.error fs := by
  induction l generalizing steps files with
  | nil => simp at h
  | cons hd rest ih =>
    obtain ⟨i, fn⟩ := hd
    obtain ⟨pr, hpr, hread⟩ := h
    cases hr : read fn with
    | raised => exact ⟨files, by simp [run_samples, hr]⟩
    | noFrame =>
      have hrest : ∃ pr ∈ rest, read pr.2 = ReadOutcome.raised := by
        rcases List.mem_cons.mp hpr with h1 | h2
        · subst h1
          rw [hread] at hr
          cases hr
        · exact ⟨pr, h2, hread⟩
      simp only [run_samples, hr]
      exact ih steps files hrest
    | frame f =>
      have hrest : ∃ pr ∈ rest, read pr.2 = ReadOutcome.raised := by
        rcases List.mem_cons.mp hpr with h1 | h2
        · subst h1
          rw [hread] at hr
          cases hr
        · exact ⟨pr, h2, hread⟩
      simp only [run_samples, hr]
      exact ih _ _ hrest

theorem run_samples_all_noframe (read : ℕ → ReadOutcome) (td : String) (gid : ℤ)
    (ns : ℕ) (l : List (ℕ × ℕ)) (steps : List StepRecord) (files : List String)
    (h : ∀ pr ∈ l, read pr.2 = ReadOutcome.noFrame) :
    run_samples read td gid ns l steps files = Except.ok (steps, files) := by
  induction l generalizing steps files with
  | nil => simp [run_samples]
  | cons hd rest ih =>
    obtain ⟨i, fn⟩ := hd
    have hh := h (i, fn) (List.mem_cons_self _ _)
    simp only at hh
    simp only [run_samples, hh]
    exact ih steps files fun pr hpr => h pr (List.mem_cons_of_mem _ hpr)

theorem run_samples_all_frames (read : ℕ → ReadOutcome) (td : String) (gid : ℤ)
    (ns : ℕ) (l : List (ℕ × ℕ)) (steps : List StepRecord) (files : List String)
    (h : ∀ pr ∈ l, ∃ f, read pr.2 = ReadOutcome.frame f) :
    run_samples read td gid ns l steps files =
      Except.ok
        (steps ++ l.map (fun pr => generate_step_from_position pr.1 ns
          (td ++ "/keyframe_" ++ toString gid ++ "_" ++ toString pr.1 ++ ".jpg")),
         files ++ l.map (fun pr =>
          td ++ "/keyframe_" ++ toString gid ++ "_" ++ toString pr.1 ++ ".jpg")) := by
  induction l generalizing steps files with
  | nil => simp [run_samples]
  | cons hd rest ih =>
    obtain ⟨i, fn⟩ := hd
    obtain ⟨f, hf⟩ := h (i, fn) (List.mem_cons_self _ _)
    simp only at hf
    simp only [run_samples, hf, List.map_cons]
    rw [ih _ _ fun pr hpr => h pr (List.mem_cons_of_mem _ hpr)]
    simp [List.append_assoc]

theorem extract_of_raised (read : ℕ → ReadOutcome) (td : String) (fps : ℚ)
    (n : ℕ) (gid : ℤ) (hfps : 0 < fps)
    (h : ∃ pr ∈ sample_plan fps n, read pr.2 = ReadOutcome.raised) :
    ∃ fs, extract_keyframes_and_generate_steps read td fps n gid =
      (generate_mock_steps gid ((n : ℚ) / fps), fs) := by
  obtain ⟨fs, hfs⟩ := run_samples_raised read td gid (plan_num_steps fps n)
    (sample_plan fps n) [] [] h
  refine ⟨fs, ?_⟩
  unfold extract_keyframes_and_generate_steps
  rw [plan_result_of_ne (ne_of_gt hfps) n]
  dsimp only
  rw [hfs, if_pos hfps]

theorem extract_of_all_noframe (read : ℕ → ReadOutcome) (td : String) (fps : ℚ)
    (n : ℕ) (gid : ℤ) (hfps : 0 < fps)
    (h : ∀ pr ∈ sample_plan fps n, read pr.2 = ReadOutcome.noFrame) :
    extract_keyframes_and_generate_steps read td fps n gid = ([], []) := by
  unfold extract_keyframes_and_generate_steps
  rw [plan_result_of_ne (ne_of_gt hfps) n]
  dsimp only
  rw [run_samples_all_noframe read td gid (plan_num_steps fps n)
    (sample_plan fps n) [] [] h]

theorem extract_of_all_frames (read : ℕ → ReadOutcome) (td : String) (fps : ℚ)
    (n : ℕ) (gid : ℤ) (hfps : 0 < fps)
    (h : ∀ pr ∈ sample_plan fps n, ∃ f, read pr.2 = ReadOutcome.frame f) :
    extract_keyframes_and_generate_steps read td fps n gid =
      ((sample_plan fps n).map (fun pr => generate_step_from_position pr.1
          (plan_num_steps fps n)
          (td ++ "/keyframe_" ++ toString gid ++ "_" ++ toString pr.1 ++ ".jpg")),
       (sample_plan fps n).map (fun pr =>
          td ++ "/keyframe_" ++ toString gid ++ "_" ++ toString pr.1 ++ ".jpg")) := by
  unfold extract_keyframes_and_generate_steps
  rw [plan_result_of_ne (ne_of_gt hfps) n]
  dsimp only
  rw [run_samples_all_frames read td gid (plan_num_steps fps n)
    (sample_plan fps n) [] [] h]
  simp

theorem process_local_of_opens (td p : String) (src : VideoSource) (gid : ℤ)
    (hopen : src.opens = true) :
    process_video td (VideoRef.localPath p) src gid =
      (Except.ok (extract_keyframes_and_generate_steps src.read td src.fps
        src.frame_count gid).1,
       (extract_keyframes_and_generate_steps src.read td src.fps
        src.frame_count gid).2) := by
  simp [process_video, open_and_extract, hopen]

theorem run_samples_skip_eval :
    run_samples src_skip_first.read "tmp" 1 5
      [(0, 0), (1, 600), (2, 1200), (3, 1800), (4, 2400)] [] [] =
      Except.ok
        ([generate_step_from_position 1 5 "tmp/keyframe_1_1.jpg",
          generate_step_from_position 2 5 "tmp/keyframe_1_2.jpg",
          generate_step_from_position 3 5 "tmp/keyframe_1_3.jpg",
          generate_step_from_position 4 5 "tmp/keyframe_1_4.jpg"],
         ["tmp/keyframe_1_1.jpg", "tmp/keyframe_1_2.jpg", "tmp/keyframe_1_3.jpg",
          "tmp/keyframe_1_4.jpg"]) := rfl

theorem run_samples_all_ok_eval :
    run_samples src_all_ok.read "tmp" 1 5
      [(0, 0), (1, 600), (2, 1200), (3, 1800), (4, 2400)] [] [] =
      Except.ok
        ([generate_step_from_position 0 5 "tmp/keyframe_1_0.jpg",
          generate_step_from_position 1 5 "tmp/keyframe_1_1.jpg",
          generate_step_from_position 2 5 "tmp/keyframe_1_2.jpg",
          generate_step_from_position 3 5 "tmp/keyframe_1_3.jpg",
          generate_step_from_position 4 5 "tmp/keyframe_1_4.jpg"],
         ["tmp/keyframe_1_0.jpg", "tmp/keyframe_1_1.jpg", "tmp/keyframe_1_2.jpg",
          "tmp/keyframe_1_3.jpg", "tmp/keyframe_1_4.jpg"]) := rfl

theorem extract_skip_eval :
    extract_keyframes_and_generate_steps src_skip_first.read "tmp"
      src_skip_first.fps src_skip_first.frame_count 1 =
      ([generate_step_from_position 1 5 "tmp/keyframe_1_1.jpg",
        generate_step_from_position 2 5 "tmp/keyframe_1_2.jpg",
        generate_step_from_position 3 5 "tmp/keyframe_1_3.jpg",
        generate_step_from_position 4 5 "tmp/keyframe_1_4.jpg"],
       ["tmp/keyframe_1_1.jpg", "tmp/keyframe_1_2.jpg", "tmp/keyframe_1_3.jpg",
        "tmp/keyframe_1_4.jpg"]) := by
  have h1 : src_skip_first.fps = 30 := rfl
  have h2 : src_skip_first.frame_count = 3000 := rfl
  rw [h1, h2]
  unfold extract_keyframes_and_generate_steps
  rw [plan_result_of_ne (by norm_num : (30 : ℚ) ≠ 0) 3000]
  dsimp only
  rw [sample_plan_30_3000, plan_num_steps_30_3000, run_samples_skip_eval]

theorem extract_all_ok_eval :
    extract_keyframes_and_generate_steps src_all_ok.read "tmp"
      src_all_ok.fps src_all_ok.frame_count 1 =
      ([generate_step_from_position 0 5 "tmp/keyframe_1_0.jpg",
        generate_step_from_position 1 5 "tmp/keyframe_1_1.jpg",
        generate_step_from_position 2 5 "tmp/keyframe_1_2.jpg",
        generate_step_from_position 3 5 "tmp/keyframe_1_3.jpg",
        generate_step_from_position 4 5 "tmp/keyframe_1_4.jpg"],
       ["tmp/keyframe_1_0.jpg", "tmp/keyframe_1_1.jpg", "tmp/keyframe_1_2.jpg",
        "tmp/keyframe_1_3.jpg", "tmp/keyframe_1_4.jpg"]) := by
  have h1 : src_all_ok.fps = 30 := rfl
  have h2 : src_all_ok.frame_count = 3000 := rfl
  rw [h1, h2]
  unfold extract_keyframes_and_generate_steps
  rw [plan_result_of_ne (by norm_num : (30 : ℚ) ≠ 0) 3000]
  dsimp only
  rw [sample_plan_30_3000, plan_num_steps_30_3000, run_samples_all_ok_eval]

theorem process_skip_eval :
    process_video "tmp" (VideoRef.localPath "v.mp4") src_skip_first 1 =
      (Except.ok
        [generate_step_from_position 1 5 "tmp/keyframe_1_1.jpg",
         generate_step_from_position 2 5 "tmp/keyframe_1_2.jpg",
         generate_step_from_position 3 5 "tmp/keyframe_1_3.jpg",
         generate_step_from_position 4 5 "tmp/keyframe_1_4.jpg"],
       ["tmp/keyframe_1_1.jpg", "tmp/keyframe_1_2.jpg", "tmp/keyframe_1_3.jpg",
        "tmp/keyframe_1_4.jpg"]) := by
  rw [process_local_of_opens _ _ _ _ rfl, extract_skip_eval]

theorem process_all_ok_eval :
    process_video "tmp" (VideoRef.localPath "v.mp4") src_all_ok 1 =
      (Except.ok
        [generate_step_from_position 0 5 "tmp/keyframe_1_0.jpg",
         generate_step_from_position 1 5 "tmp/keyframe_1_1.jpg",
         generate_step_from_position 2 5 "tmp/keyframe_1_2.jpg",
         generate_step_from_position 3 5 "tmp/keyframe_1_3.jpg",
         generate_step_from_position 4 5 "tmp/keyframe_1_4.jpg"],
       ["tmp/keyframe_1_0.jpg", "tmp/keyframe_1_1.jpg", "tmp/keyframe_1_2.jpg",
        "tmp/keyframe_1_3.jpg", "tmp/keyframe_1_4.jpg"]) := by
  rw [process_local_of_opens _ _ _ _ rfl, extract_all_ok_eval]

theorem process_noframe_eval :
    process_video "tmp" (VideoRef.localPath "v.mp4") src_all_noframe 7 =
      (Except.ok [], []) := by
  rw [process_local_of_opens _ _ _ _ rfl]
  have h1 : src_all_noframe.fps = 30 := rfl
  have h2 : src_all_noframe.frame_count = 3000 := rfl
  rw [h1, h2]
  rw [extract_of_all_noframe _ _ _ _ _ (by norm_num : (0 : ℚ) < 30)
    (fun pr hpr => rfl)]

theorem process_raise_eval :
    (process_video "tmp" (VideoRef.localPath "v.mp4") src_all_raise 1).1 =
      Except.ok (generate_mock_steps 1 100) := by
  have h1 : src_all_raise.fps = 30 := rfl
  have h2 : src_all_raise.frame_count = 3000 := rfl
  obtain ⟨fs, hfs⟩ := extract_of_raised src_all_raise.read "tmp" 30 3000 1
    (by norm_num : (0 : ℚ) < 30)
    ⟨(0, 0), by rw [sample_plan_30_3000]; simp, rfl⟩
  rw [process_local_of_opens _ _ _ _ rfl]
  dsimp only
  rw [h1, h2, hfs]
  rw [show ((3000 : ℕ) : ℚ) / (30 : ℚ) = 100 from by norm_num]

theorem process_url_noopen_eval :
    process_video "tmp" (VideoRef.url "u" true) src_no_open 1 =
      (Except.error "Could not open video file: tmp/video_u.mp4",
       ["tmp/video_u.mp4"]) := rfl

/-- C2: for every frame_count ≥ 1 and frame_rate > 0 the sampling plan succeeds
(no crash) with num_steps = max(3, min(6, ⌊frame_count / (frame_rate × 20)⌋))
entries, the k-th entry being ordinal k with frame index k × (frame_count ÷
num_steps) under integer division; hence between 3 and 6 entries inclusive,
ordinals strictly increasing from 0 and frame indices non-decreasing; and a
3000-frame 30 fps video yields exactly 5 samples at frame indices
0, 600, 1200, 1800, 2400. -/
theorem C2_sampling_plan :
    (∀ (fps : ℚ) (n : ℕ), 1 ≤ n → 0 < fps →
      plan_result fps n = Except.ok (sample_plan fps n) ∧
      (sample_plan fps n).length = (max 3 (min 6 ⌊(n : ℚ) / (fps * 20)⌋)).toNat ∧
      3 ≤ (sample_plan fps n).length ∧ (sample_plan fps n).length ≤ 6 ∧
      (∀ (k : ℕ) (hk : k < (sample_plan fps n).length),
        ((sample_plan fps n).get ⟨k, hk⟩).1 = k ∧
        ((sample_plan fps n).get ⟨k, hk⟩).2 = k * (n / plan_num_steps fps n)) ∧
      (∀ (j k : ℕ) (hj : j < (sample_plan fps n).length)
        (hk : k < (sample_plan fps n).length), j ≤ k →
        ((sample_plan fps n).get ⟨j, hj⟩).2 ≤ ((sample_plan fps n).get ⟨k, hk⟩).2)) ∧
    plan_result 30 3000 =
      Except.ok [(0, 0), (1, 600), (2, 1200), (3, 1800), (4, 2400)] := by
  constructor
  · intro fps n hn hf
    have hq : (0 : ℚ) ≤ (n : ℚ) / (fps * 20) := by positivity
    refine ⟨plan_result_of_ne (ne_of_gt hf) n, ?_, ?_, ?_, ?_, ?_⟩
    · rw [length_sample_plan]
      unfold plan_num_steps
      rw [pyTrunc_of_nonneg hq]
      generalize ⌊(n : ℚ) / (fps * 20)⌋ = x
      omega
    · rw [length_sample_plan]; exact three_le_plan_num_steps fps n
    · rw [length_sample_plan]; exact plan_num_steps_le_six fps n
    · intro k hk
      constructor
      · simp [sample_plan, List.get_eq_getElem]
      · simp [sample_plan, List.get_eq_getElem, plan_interval]
    · intro j k hj hk hjk
      simp only [sample_plan, List.get_eq_getElem, List.getElem_map,
        List.getElem_range]
      exact Nat.mul_le_mul_right _ hjk
  · rw [plan_result_of_ne (by norm_num : (30 : ℚ) ≠ 0) 3000, sample_plan_30_3000]

/-- Witness for C2 at the concrete 3000-frame, 30 fps video of the claim. -/
theorem C2_sampling_plan_witness :
    (1 ≤ 3000 ∧ (0 : ℚ) < 30) ∧
    plan_result 30 3000 = Except.ok (sample_plan 30 3000) ∧
    3 ≤ (sample_plan 30 3000).length ∧
    plan_result 30 3000 =
      Except.ok [(0, 0), (1, 600), (2, 1200), (3, 1800), (4, 2400)] :=
  ⟨⟨by norm_num, by norm_num⟩,
   (C2_sampling_plan.1 30 3000 (by norm_num) (by norm_num)).1,
   (C2_sampling_plan.1 30 3000 (by norm_num) (by norm_num)).2.2.1,
   C2_sampling_plan.2⟩

/-- C4 counterexample: with frame_rate 0 the planning computation does crash —
the inline `int(frame_count / (fps * 20))` raises ZeroDivisionError — so it
does not return a plan of 3 entries with frame index 0 (or any plan at all). -/
theorem C4_counterexample :
    plan_result 0 3000 = Except.error () ∧
    ∀ l : List (ℕ × ℕ), plan_result 0 3000 ≠ Except.ok l := by
  constructor
  · unfold plan_result
    rw [if_pos (by norm_num)]
  · intro l hl
    unfold plan_result at hl
    rw [if_pos (by norm_num)] at hl
    cases hl

/-- C4 amended: for frame_rate = 0 the planning expression raises
ZeroDivisionError; the sampling-phase handler absorbs it, defaults the duration
to 60, and the pipeline returns exactly 3 mock StepRecords (placeholder image
URLs, no frame indices) without crashing. -/
theorem C4_zero_fps_mock (n : ℕ) (gid : ℤ) (read : ℕ → ReadOutcome)
    (td : String) :
    plan_result 0 n = Except.error () ∧
    extract_keyframes_and_generate_steps read td 0 n gid =
      (generate_mock_steps gid 60, []) ∧
    (generate_mock_steps gid 60).length = 3 := by
  refine ⟨?_, ?_, ?_⟩
  · unfold plan_result
    rw [if_pos (by norm_num)]
  · unfold extract_keyframes_and_generate_steps
    rw [show plan_result 0 n = Except.error () from by
      unfold plan_result; rw [if_pos (by norm_num)]]
    dsimp only
    rw [if_neg (by norm_num : ¬ (0 : ℚ) < 0)]
  · rw [length_generate_mock_steps, mock_num_steps_60]

/-- C7: step synthesis picks template min(i, pool_size − 1) from the fixed
ordered pool of 6 templates, returns the last template for every
i ≥ pool_size − 1 regardless of the total step count, and the produced record
depends only on the ordinal i — not on the total count, the keyframe path, or
any frame content. -/
theorem C7_template_selection :
    step_templates.length = 6 ∧
    (∀ (i n : ℕ) (p : String),
      (generate_step_from_position i n p).title =
        (step_templates.getD (min i (step_templates.length - 1)) ("", "")).1 ∧
      (generate_step_from_position i n p).description =
        (step_templates.getD (min i (step_templates.length - 1)) ("", "")).2) ∧
    (∀ (i n : ℕ) (p : String), step_templates.length - 1 ≤ i →
      (generate_step_from_position i n p).title =
        (step_templates.getD (step_templates.length - 1) ("", "")).1 ∧
      (generate_step_from_position i n p).description =
        (step_templates.getD (step_templates.length - 1) ("", "")).2) ∧
    (∀ (i n n' : ℕ) (p p' : String),
      generate_step_from_position i n p = generate_step_from_position i n' p') := by
  refine ⟨rfl, ?_, ?_, ?_⟩
  · intro i n p
    exact ⟨rfl, rfl⟩
  · intro i n p hi
    have hmin : min i (step_templates.length - 1) = step_templates.length - 1 :=
      min_eq_right hi
    constructor
    · show (step_templates.getD (min i (step_templates.length - 1)) ("", "")).1 = _
      rw [hmin]
    · show (step_templates.getD (min i (step_templates.length - 1)) ("", "")).2 = _
      rw [hmin]
  · intro i n n' p p'
    rfl

/-- Witness for C7 at ordinal 7 (≥ pool_size − 1 = 5) with two different total
counts and keyframe paths. -/
theorem C7_template_selection_witness :
    step_templates.length - 1 ≤ 7 ∧
    (generate_step_from_position 7 9 "a").title =
      (step_templates.getD (step_templates.length - 1) ("", "")).1 ∧
    generate_step_from_position 7 9 "a" = generate_step_from_position 7 2 "b" :=
  ⟨by decide, (C7_template_selection.2.2.1 7 9 "a" (by decide)).1,
   C7_template_selection.2.2.2 7 9 2 "a" "b"⟩

/-- C9 counterexample: the guide identifier derived by
`hash(video_hash) % 10000` is not a function of the video content alone: Python
salts `str` hashes per interpreter process (PYTHONHASHSEED), so two runs in
processes whose `str` hash functions differ on the digest of identical content
(here the SHA-256 hex digest of "test") derive different identifiers. -/
theorem C9_counterexample :
    actual_guide_id (fun _ => 1) none
        "9f86d081884c7d659a2feaa0c55ad015a3bf4f1b2b0b822cd15d6c15b0f00a08" ≠
      actual_guide_id (fun _ => 2) none
        "9f86d081884c7d659a2feaa0c55ad015a3bf4f1b2b0b822cd15d6c15b0f00a08" := by
  decide

/-- C9 amended: within one interpreter process (one fixed `str`-hash salt) the
derivation is deterministic — identical content digests give identical derived
identifiers — and the derived identifier always lies in [0, 10000); across
processes it may differ because Python salts `str` hashes per process. -/
theorem C9_guide_id_per_process (py_str_hash : String → ℤ) (h h' : String)
    (heq : h = h') :
    actual_guide_id py_str_hash none h = actual_guide_id py_str_hash none h' ∧
    0 ≤ actual_guide_id py_str_hash none h ∧
    actual_guide_id py_str_hash none h < 10000 := by
  subst heq
  refine ⟨rfl, ?_, ?_⟩
  · exact Int.emod_nonneg _ (by norm_num)
  · exact Int.emod_lt_of_pos _ (by norm_num)

/-- Witness for C9 with a concrete per-process hash function and digest. -/
theorem C9_guide_id_per_process_witness :
    ("abc" : String) = "abc" ∧
    actual_guide_id (fun s => (s.length : ℤ)) none "abc" =
      actual_guide_id (fun s => (s.length : ℤ)) none "abc" ∧
    0 ≤ actual_guide_id (fun s => (s.length : ℤ)) none "abc" :=
  ⟨rfl, (C9_guide_id_per_process (fun s => (s.length : ℤ)) "abc" "abc" rfl).1,
   (C9_guide_id_per_process (fun s => (s.length : ℤ)) "abc" "abc" rfl).2.1⟩

/-- C10: whenever `process_video` returns normally its value is a bare list of
step records, so the handler's `result["cached"] = False` raises TypeError and
`upload_video` answers HTTP 500 — it never returns a success response for a
successfully processed video. -/
theorem C10_cached_assignment_type_error (td : String) (ref : VideoRef)
    (src : VideoSource) (gid : ℤ) (steps : List StepRecord)
    (h : (process_video td ref src gid).1 = Except.ok steps) :
    upload_video (process_video td ref src gid).1 =
      HandlerOutcome.httpError 500
        "list indices must be integers or slices, not str" ∧
    ∀ body, upload_video (process_video td ref src gid).1 ≠
      HandlerOutcome.success body := by
  rw [h]
  constructor
  · rfl
  · intro body hbody
    simp [upload_video, set_cached_false] at hbody

/-- Witness for C10 at a concrete successfully processed video (all reads raise,
so processing succeeds with the mock fallback list). -/
theorem C10_cached_assignment_type_error_witness :
    (process_video "tmp" (VideoRef.localPath "v.mp4") src_all_raise 1).1 =
      Except.ok (generate_mock_steps 1 100) ∧
    upload_video (process_video "tmp" (VideoRef.localPath "v.mp4") src_all_raise 1).1 =
      HandlerOutcome.httpError 500
        "list indices must be integers or slices, not str" :=
  ⟨process_raise_eval,
   (C10_cached_assignment_type_error "tmp" (VideoRef.localPath "v.mp4")
     src_all_raise 1 (generate_mock_steps 1 100) process_raise_eval).1⟩

theorem order_of_mapped_plan (fps : ℚ) (n : ℕ) (ns : ℕ) (g : ℕ → String)
    (k : ℕ) (hk : k < ((sample_plan fps n).map
      (fun pr => generate_step_from_position pr.1 ns (g pr.1))).length) :
    (((sample_plan fps n).map
      (fun pr => generate_step_from_position pr.1 ns (g pr.1))).get
        ⟨k, hk⟩).order = k + 1 := by
  simp [sample_plan, List.get_eq_getElem, generate_step_from_position]

/-- C1 counterexample: a source that opens but whose every planned read fails
to decode gracefully (`ret == False`, which is how OpenCV reports a read
failure) yields a non-error but EMPTY result — no mock records at all,
contradicting the claimed never-empty 3–6 mock StepRecords. -/
theorem C1_counterexample :
    (process_video "tmp" (VideoRef.localPath "v.mp4") src_all_noframe 7).1 =
      Except.ok ([] : List StepRecord) ∧
    ¬ 3 ≤ ([] : List StepRecord).length := by
  constructor
  · rw [process_noframe_eval]
  · decide

/-- C1 amended: after a successful open, planned reads that fail to decode by
returning no frame are silently skipped — if every planned read fails this way
the result is a non-error EMPTY list; only when a planned read raises an
exception does the run fall back to duration-based mock steps, and then the
result has clamp(duration/30, 3, 6) ∈ [3, 6] records, never empty, whose image
references are the placeholder URLs keyed by ordinal. -/
theorem C1_decode_failure_behavior :
    (∀ (td p : String) (src : VideoSource) (gid : ℤ),
      src.opens = true → 0 < src.fps →
      (∃ pr ∈ sample_plan src.fps src.frame_count,
        src.read pr.2 = ReadOutcome.raised) →
      ∃ steps, (process_video td (VideoRef.localPath p) src gid).1 =
          Except.ok steps ∧
        steps = generate_mock_steps gid ((src.frame_count : ℚ) / src.fps) ∧
        steps.length = mock_num_steps ((src.frame_count : ℚ) / src.fps) ∧
        3 ≤ steps.length ∧ steps.length ≤ 6 ∧
        (∀ (k : ℕ) (hk : k < steps.length),
          (steps.get ⟨k, hk⟩).image_url =
            "https://picsum.photos/id/" ++ toString (20 + k) ++ "/800/400")) ∧
    (∀ (td p : String) (src : VideoSource) (gid : ℤ),
      src.opens = true → 0 < src.fps →
      (∀ pr ∈ sample_plan src.fps src.frame_count,
        src.read pr.2 = ReadOutcome.noFrame) →
      (process_video td (VideoRef.localPath p) src gid).1 =
        Except.ok ([] : List StepRecord)) := by
  constructor
  · intro td p src gid hopen hfps hraise
    obtain ⟨fs, hfs⟩ := extract_of_raised src.read td src.fps src.frame_count
      gid hfps hraise
    refine ⟨generate_mock_steps gid ((src.frame_count : ℚ) / src.fps),
      ?_, rfl, ?_, ?_, ?_, ?_⟩
    · rw [process_local_of_opens td p src gid hopen]
      dsimp only
      rw [hfs]
    · exact length_generate_mock_steps _ _
    · rw [length_generate_mock_steps]
      exact three_le_mock_num_steps _
    · rw [length_generate_mock_steps]
      exact mock_num_steps_le_six _
    · intro k hk
      exact (get_generate_mock_steps gid _ k hk).2
  · intro td p src gid hopen hfps hnone
    rw [process_local_of_opens td p src gid hopen]
    dsimp only
    rw [extract_of_all_noframe src.read td src.fps src.frame_count gid hfps hnone]

/-- Witness for C1: the all-raising source yields the mock records (3 of them),
the gracefully failing source yields the empty result. -/
theorem C1_decode_failure_behavior_witness :
    (∃ steps, (process_video "tmp" (VideoRef.localPath "v.mp4") src_all_raise 7).1 =
        Except.ok steps ∧ 3 ≤ steps.length) ∧
    (process_video "tmp" (VideoRef.localPath "v.mp4") src_all_noframe 7).1 =
      Except.ok ([] : List StepRecord) := by
  constructor
  · obtain ⟨steps, h1, h2, h3, h4, h5, h6⟩ :=
      C1_decode_failure_behavior.1 "tmp" "v.mp4" src_all_raise 7 rfl
        (by norm_num : (0 : ℚ) < 30)
        ⟨(0, 0), by
          rw [show src_all_raise.fps = 30 from rfl,
            show src_all_raise.frame_count = 3000 from rfl, sample_plan_30_3000]
          simp, rfl⟩
    exact ⟨steps, h1, h4⟩
  · exact C1_decode_failure_behavior.2 "tmp" "v.mp4" src_all_noframe 7 rfl
      (by norm_num : (0 : ℚ) < 30) (fun pr hpr => rfl)

/-- C3 counterexample: a successfully opened source whose first planned read
fails gracefully yields a PARTIAL result: 4 records where the plan has 5
samples (and where a mock fallback would have had 3) — the caller does receive
a partial result after a successful open. -/
theorem C3_counterexample :
    (process_video "tmp" (VideoRef.localPath "v.mp4") src_skip_first 1).1.map
      List.length = Except.ok 4 ∧
    plan_num_steps src_skip_first.fps src_skip_first.frame_count = 5 ∧
    mock_num_steps ((src_skip_first.frame_count : ℚ) / src_skip_first.fps) = 3 := by
  refine ⟨?_, ?_, ?_⟩
  · rw [process_skip_eval]
    rfl
  · exact plan_num_steps_30_3000
  · rw [show ((src_skip_first.frame_count : ℚ) / src_skip_first.fps) = 100 from by
      rw [show src_skip_first.fps = 30 from rfl,
        show src_skip_first.frame_count = 3000 from rfl]
      norm_num]
    exact mock_num_steps_100

/-- C3 amended: an open failure (and a download failure) is fatal and
propagated to the caller as an explicit error with no fallback; once the
source has opened, the caller never receives an error — but the returned list
can be PARTIAL: planned reads that return no frame are silently skipped, so it
is not always a full step list. -/
theorem C3_open_failure_fatal :
    (∀ (td p : String) (src : VideoSource) (gid : ℤ), src.opens = false →
      (process_video td (VideoRef.localPath p) src gid).1 =
        Except.error ("Could not open video file: " ++ p)) ∧
    (∀ (td u : String) (src : VideoSource) (gid : ℤ), src.opens = false →
      (process_video td (VideoRef.url u true) src gid).1 =
        Except.error ("Could not open video file: " ++
          (td ++ "/video_" ++ u ++ ".mp4"))) ∧
    (∀ (td u : String) (src : VideoSource) (gid : ℤ),
      (process_video td (VideoRef.url u false) src gid).1 =
        Except.error ("Error downloading video from " ++ u)) ∧
    (∀ (td p : String) (src : VideoSource) (gid : ℤ), src.opens = true →
      ∃ steps, (process_video td (VideoRef.localPath p) src gid).1 =
        Except.ok steps) ∧
    (∀ (td u : String) (src : VideoSource) (gid : ℤ), src.opens = true →
      ∃ steps, (process_video td (VideoRef.url u true) src gid).1 =
        Except.ok steps) := by
  refine ⟨?_, ?_, ?_, ?_, ?_⟩
  · intro td p src gid hopen
    simp [process_video, open_and_extract, hopen]
  · intro td u src gid hopen
    simp [process_video, download_video, open_and_extract, hopen]
  · intro td u src gid
    simp [process_video, download_video]
  · intro td p src gid hopen
    exact ⟨_, by rw [process_local_of_opens td p src gid hopen]⟩
  · intro td u src gid hopen
    refine ⟨(extract_keyframes_and_generate_steps src.read td src.fps
      src.frame_count gid).1, ?_⟩
    simp [process_video, download_video, open_and_extract, hopen]

/-- Witness for C3: the unopenable source propagates the open error; the fully
decodable source returns a non-error result. -/
theorem C3_open_failure_fatal_witness :
    src_no_open.opens = false ∧
    (process_video "tmp" (VideoRef.localPath "v.mp4") src_no_open 1).1 =
      Except.error ("Could not open video file: " ++ "v.mp4") ∧
    (∃ steps, (process_video "tmp" (VideoRef.localPath "v.mp4") src_all_ok 1).1 =
      Except.ok steps) :=
  ⟨rfl, C3_open_failure_fatal.1 "tmp" "v.mp4" src_no_open 1 rfl,
   C3_open_failure_fatal.2.2.2.1 "tmp" "v.mp4" src_all_ok 1 rfl⟩


/-- C5 counterexample: `_optimize_image` truncates scaled dimensions with
Python `int()`, it does not round to nearest: a 1300×651 frame at max_width
1200 gets height int(651 × 1200/1300) = int(600.92…) = 600, while rounding to
the nearest integer would give 601. -/
theorem C5_counterexample :
    (optimize_image ⟨1300, 651⟩ 1200).height = 600 ∧
    round ((651 : ℚ) * ((1200 : ℚ) / (1300 : ℚ))) = 601 ∧
    ((optimize_image ⟨1300, 651⟩ 1200).height : ℤ) ≠
      round ((651 : ℚ) * ((1200 : ℚ) / (1300 : ℚ))) := by
  have h1 : (optimize_image ⟨1300, 651⟩ 1200).height = 600 := by
    unfold optimize_image pyTrunc
    norm_num
    decide
  have h2 : round ((651 : ℚ) * ((1200 : ℚ) / (1300 : ℚ))) = 601 := by
    rw [round_eq]
    norm_num
  refine ⟨h1, h2, ?_⟩
  rw [h1, h2]
  decide

/-- C5 amended: encode output width never exceeds max_width; when width >
max_width both dimensions are scaled by max_width/width and truncated toward
zero (Python `int()`, i.e. the floor of these nonnegative values) — not rounded
to nearest — which still keeps the aspect ratio within one pixel; frames at or
below max_width keep their dimensions. -/
theorem C5_resize_truncates :
    (∀ (f : Frame) (mw : ℕ), (optimize_image f mw).width ≤ mw) ∧
    (∀ (f : Frame) (mw : ℕ), f.width > mw →
      optimize_image f mw =
        ⟨mw, (⌊(f.height : ℚ) * ((mw : ℚ) / (f.width : ℚ))⌋).toNat⟩ ∧
      ((optimize_image f mw).height : ℚ) ≤
        (f.height : ℚ) * ((mw : ℚ) / (f.width : ℚ)) ∧
      (f.height : ℚ) * ((mw : ℚ) / (f.width : ℚ)) - 1 <
        ((optimize_image f mw).height : ℚ)) ∧
    (∀ (f : Frame) (mw : ℕ), f.width ≤ mw →
      optimize_image f mw = ⟨f.width, f.height⟩) := by
  have key : ∀ (f : Frame) (mw : ℕ), f.width > mw →
      optimize_image f mw =
        ⟨mw, (⌊(f.height : ℚ) * ((mw : ℚ) / (f.width : ℚ))⌋).toNat⟩ := by
    intro f mw hgt
    have hwpos : 0 < f.width := by omega
    have hw0 : (0 : ℚ) < (f.width : ℚ) := by exact_mod_cast hwpos
    have hcancel : (f.width : ℚ) * ((mw : ℚ) / (f.width : ℚ)) = (mw : ℚ) := by
      field_simp
    have hh0 : (0 : ℚ) ≤ (f.height : ℚ) * ((mw : ℚ) / (f.width : ℚ)) := by
      positivity
    unfold optimize_image
    rw [if_pos hgt]
    dsimp only
    rw [hcancel, pyTrunc_of_nonneg (by positivity), pyTrunc_of_nonneg hh0,
      Int.floor_natCast]
    simp
  have hnogrow : ∀ (f : Frame) (mw : ℕ), f.width ≤ mw →
      optimize_image f mw = ⟨f.width, f.height⟩ := by
    intro f mw hle
    unfold optimize_image
    rw [if_neg (not_lt.mpr hle)]
  refine ⟨?_, ?_, hnogrow⟩
  · intro f mw
    by_cases hgt : f.width > mw
    · rw [key f mw hgt]
    · rw [hnogrow f mw (Nat.le_of_not_lt hgt)]
      exact Nat.le_of_not_lt hgt
  · intro f mw hgt
    have hh0 : (0 : ℚ) ≤ (f.height : ℚ) * ((mw : ℚ) / (f.width : ℚ)) := by
      have hw0 : (0 : ℚ) ≤ (f.width : ℚ) := by positivity
      positivity
    have hfl0 : 0 ≤ ⌊(f.height : ℚ) * ((mw : ℚ) / (f.width : ℚ))⌋ :=
      Int.floor_nonneg.mpr hh0
    have hcast : ((⌊(f.height : ℚ) * ((mw : ℚ) / (f.width : ℚ))⌋.toNat : ℕ) : ℚ) =
        ((⌊(f.height : ℚ) * ((mw : ℚ) / (f.width : ℚ))⌋ : ℤ) : ℚ) := by
      exact_mod_cast Int.toNat_of_nonneg hfl0
    refine ⟨key f mw hgt, ?_, ?_⟩
    · rw [key f mw hgt]
      dsimp only
      rw [hcast]
      exact Int.floor_le _
    · rw [key f mw hgt]
      dsimp only
      rw [hcast]
      exact Int.sub_one_lt_floor _

/-- Witness for C5: a 1300-wide frame is shrunk to the truncated dimensions, an
800-wide frame is untouched. -/
theorem C5_resize_truncates_witness :
    (Frame.mk 1300 651).width > 1200 ∧
    optimize_image ⟨1300, 651⟩ 1200 =
      ⟨1200, (⌊((Frame.mk 1300 651).height : ℚ) *
        ((1200 : ℚ) / ((Frame.mk 1300 651).width : ℚ))⌋).toNat⟩ ∧
    optimize_image ⟨800, 600⟩ 1200 = ⟨800, 600⟩ :=
  ⟨by decide, (C5_resize_truncates.2.1 ⟨1300, 651⟩ 1200 (by decide)).1,
   C5_resize_truncates.2.2 ⟨800, 600⟩ 1200 (by decide)⟩

/-- C6 counterexample: when the first planned read fails gracefully, record
orders come from the plan ordinal, not the list position: the returned orders
are [2, 3, 4, 5], so the record at list position 0 has order 2 ≠ 0 + 1. -/
theorem C6_counterexample :
    (process_video "tmp" (VideoRef.localPath "v.mp4") src_skip_first 1).1.map
      (List.map StepRecord.order) = Except.ok [2, 3, 4, 5] ∧
    (2 : ℕ) ≠ 0 + 1 := by
  constructor
  · rw [process_skip_eval]
    rfl
  · decide

/-- C6 amended: order values are plan-ordinal + 1. In every mock list, and in
every real-path list in which all planned reads succeeded, the record at list
position k has order k + 1; when planned reads fail gracefully the skipped
ordinals leave gaps, so order can exceed position + 1. -/
theorem C6_order_matches_position :
    (∀ (gid : ℤ) (d : ℚ) (k : ℕ) (hk : k < (generate_mock_steps gid d).length),
      ((generate_mock_steps gid d).get ⟨k, hk⟩).order = k + 1) ∧
    (∀ (td p : String) (src : VideoSource) (gid : ℤ),
      src.opens = true → 0 < src.fps →
      (∀ pr ∈ sample_plan src.fps src.frame_count,
        ∃ f, src.read pr.2 = ReadOutcome.frame f) →
      ∃ steps, (process_video td (VideoRef.localPath p) src gid).1 =
          Except.ok steps ∧
        steps.length = plan_num_steps src.fps src.frame_count ∧
        ∀ (k : ℕ) (hk : k < steps.length), (steps.get ⟨k, hk⟩).order = k + 1) := by
  constructor
  · intro gid d k hk
    exact (get_generate_mock_steps gid d k hk).1
  · intro td p src gid hopen hfps hall
    refine ⟨(sample_plan src.fps src.frame_count).map
      (fun pr => generate_step_from_position pr.1
        (plan_num_steps src.fps src.frame_count)
        ((fun i => td ++ "/keyframe_" ++ toString gid ++ "_" ++ toString i ++
          ".jpg") pr.1)), ?_, ?_, ?_⟩
    · rw [process_local_of_opens td p src gid hopen]
      dsimp only
      rw [extract_of_all_frames src.read td src.fps src.frame_count gid hfps hall]
    · rw [List.length_map, length_sample_plan]
    · intro k hk
      exact order_of_mapped_plan src.fps src.frame_count
        (plan_num_steps src.fps src.frame_count)
        (fun i => td ++ "/keyframe_" ++ toString gid ++ "_" ++ toString i ++
          ".jpg") k hk

/-- Witness for C6: the fully decodable source yields 5 records whose orders
match their positions; a mock list does as well. -/
theorem C6_order_matches_position_witness :
    (∃ steps, (process_video "tmp" (VideoRef.localPath "v.mp4") src_all_ok 1).1 =
        Except.ok steps ∧
      steps.length = plan_num_steps src_all_ok.fps src_all_ok.frame_count ∧
      ∀ (k : ℕ) (hk : k < steps.length), (steps.get ⟨k, hk⟩).order = k + 1) ∧
    (∀ (k : ℕ) (hk : k < (generate_mock_steps 3 100).length),
      ((generate_mock_steps 3 100).get ⟨k, hk⟩).order = k + 1) :=
  ⟨C6_order_matches_position.2 "tmp" "v.mp4" src_all_ok 1 rfl
      (by norm_num : (0 : ℚ) < 30) (fun pr hpr => ⟨⟨800, 600⟩, rfl⟩),
   fun k hk => C6_order_matches_position.1 3 100 k hk⟩

/-- C8, the code evaluated at the failing inputs: temporary files are NOT
deleted by the time the run ends — a successful run leaves its five keyframe
JPEGs under the processor's temp_dir, and a URL run whose download succeeded
but whose open failed leaves the downloaded copy behind; no code path of
`VideoProcessor` removes `temp_dir` or any file inside it. -/
theorem C8_temp_files_remain :
    (process_video "tmp" (VideoRef.localPath "v.mp4") src_all_ok 1).2 =
      ["tmp/keyframe_1_0.jpg", "tmp/keyframe_1_1.jpg", "tmp/keyframe_1_2.jpg",
       "tmp/keyframe_1_3.jpg", "tmp/keyframe_1_4.jpg"] ∧
    (process_video "tmp" (VideoRef.localPath "v.mp4") src_all_ok 1).2 ≠ [] ∧
    (process_video "tmp" (VideoRef.url "u" true) src_no_open 1).2 =
      ["tmp/video_u.mp4"] := by
  refine ⟨?_, ?_, ?_⟩
  · rw [process_all_ok_eval]
  · rw [process_all_ok_eval]
    decide
  · rw [process_url_noopen_eval]
